import Mathlib

/-!
Verification of `grafanatesting/grafanaapi/grafanaapi.py` (class `GrafanaApi`).

The Python module is embedded shallowly:

* Python strings are lists of characters (`Str`); `str.replace`, `str.split`,
  `str.rsplit` with maxsplit 1, `in` and `startswith` are modelled by
  executable functions below with Python's semantics for the non-empty
  patterns the module uses.
* JSON values (the parsed bodies of HTTP responses) are `JValue`.
* Fallible Python evaluation (KeyError, IndexError, TypeError,
  AttributeError, failed `assert`) is the `Py` monad, `Except PyError`.
* Each REST operation is split into a pure core acting on the fetched JSON
  and a `_full` wrapper that performs the HTTP GET against an abstract
  `Http` oracle and records the list of URLs requested, so that the number
  of GETs an operation performs is part of the model.

Logging calls (`LOGGER.info`, `LOGGER.debug`, the `Differ` diff) do not
affect results; only their argument evaluation that can raise (the
`panel["title"]` lookup in the final debug line of
`get_panel_chart_targets`) is modelled.
-/

/-- Python strings, as lists of characters. -/
abbrev Str := List Char

/-- Python `pat in s` substring test (for `s` a string). -/
def strContains (s pat : Str) : Bool :=
  match s with
  | [] => pat.isEmpty
  | _ :: rest => pat.isPrefixOf s || strContains rest pat

/-- Fuel-driven worker for `strReplace`; fuel at least `s.length` makes the
fuel-exhausted branch unreachable. -/
def strReplaceF : Nat → Str → Str → Str → Str
  | _, [], _, _ => []
  | 0, s, _, _ => s
  | fuel + 1, c :: rest, pat, rep =>
    if pat.isPrefixOf (c :: rest) ∧ pat ≠ [] then
      rep ++ strReplaceF fuel (List.drop pat.length (c :: rest)) pat rep
    else
      c :: strReplaceF fuel rest pat rep

/-- Python `s.replace(pat, rep)`: leftmost non-overlapping occurrences, for
the non-empty patterns the module uses. -/
def strReplace (s pat rep : Str) : Str := strReplaceF s.length s pat rep

/-- Fuel-driven worker for `strSplit`. -/
def strSplitF : Nat → Str → Str → List Str
  | _, [], _ => [[]]
  | 0, s, _ => [s]
  | fuel + 1, c :: rest, sep =>
    if sep.isPrefixOf (c :: rest) ∧ sep ≠ [] then
      [] :: strSplitF fuel (List.drop sep.length (c :: rest)) sep
    else
      match strSplitF fuel rest sep with
      | [] => [[c]]
      | r :: rs => (c :: r) :: rs

/-- Python `s.split(sep)` for non-empty `sep`. -/
def strSplit (s sep : Str) : List Str := strSplitF s.length s sep

/-- Position of the first occurrence of `pat`: `some (before, after)` splits
`s` around that occurrence, `none` when `pat` does not occur. -/
def splitOnceL (s pat : Str) : Option (Str × Str) :=
  match s with
  | [] => none
  | c :: rest =>
    if pat.isPrefixOf (c :: rest) ∧ pat ≠ [] then
      some ([], List.drop pat.length (c :: rest))
    else
      match splitOnceL rest pat with
      | some (b, a) => some (c :: b, a)
      | none => none

/-- Python `s.split(pat, 1)[0]`: the part before the first occurrence of
`pat`, or all of `s` when `pat` does not occur. -/
def splitBefore (s pat : Str) : Str :=
  match splitOnceL s pat with
  | some (b, _) => b
  | none => s

/-- Python `s.rsplit(pat, 1)` when it yields two parts: `some (before,
after)` splits `s` around the last occurrence of `pat`; `none` when `pat`
does not occur (Python then yields a single part). -/
def rsplitOnce (s pat : Str) : Option (Str × Str) :=
  match s with
  | [] => none
  | c :: rest =>
    match rsplitOnce rest pat with
    | some (b, a) => some (c :: b, a)
    | none =>
      if pat.isPrefixOf (c :: rest) ∧ pat ≠ [] then
        some ([], List.drop pat.length (c :: rest))
      else
        none

/-- JSON values, the results of `response.json()` and their parts. -/
inductive JValue where
  | null
  | bool (b : Bool)
  | num (n : Int)
  | str (s : String)
  | arr (elems : List JValue)
  | obj (fields : List (String × JValue))

mutual

/-- Structural equality of JSON values (Python `==` restricted to JSON data;
Python's cross-type numeric equalities such as `1 == True` play no role in
this module's data). -/
def JValue.beq : JValue → JValue → Bool
  | .null, .null => true
  | .bool a, .bool b => a == b
  | .num a, .num b => a == b
  | .str a, .str b => a == b
  | .arr xs, .arr ys => JValue.beqList xs ys
  | .obj xs, .obj ys => JValue.beqFields xs ys
  | _, _ => false

/-- Elementwise `JValue.beq` on lists. -/
def JValue.beqList : List JValue → List JValue → Bool
  | [], [] => true
  | x :: xs, y :: ys => JValue.beq x y && JValue.beqList xs ys
  | _, _ => false

/-- Elementwise `JValue.beq` on key-value lists. -/
def JValue.beqFields : List (String × JValue) → List (String × JValue) → Bool
  | [], [] => true
  | (k, v) :: xs, (l, w) :: ys => k == l && JValue.beq v w && JValue.beqFields xs ys
  | _, _ => false

end

/-- Python truthiness of a JSON value. -/
def JValue.truthy : JValue → Bool
  | .null => false
  | .bool b => b
  | .num n => n != 0
  | .str s => s ≠ ""
  | .arr xs => !xs.isEmpty
  | .obj kvs => !kvs.isEmpty

/-- Python `v == k` for a string `k`: only a string compares equal. -/
def jEqStr (v : JValue) (k : String) : Bool :=
  match v with
  | .str s => s = k
  | _ => false

/-- Python exceptions the module can raise. -/
inductive PyError where
  | assertionError
  | keyError
  | typeError
  | indexError
  | attributeError
  | checkFailed

/-- Fallible Python evaluation. -/
abbrev Py (α : Type) := Except PyError α

/-- First binding of key `k` in a field list. -/
def lookupField (kvs : List (String × JValue)) (k : String) : Option JValue :=
  match kvs with
  | [] => none
  | (l, v) :: rest => if l = k then some v else lookupField rest k

/-- Python `d.get(k)`-style lookup on an object; `none` on any other value. -/
def jLookup (v : JValue) (k : String) : Option JValue :=
  match v with
  | .obj kvs => lookupField kvs k
  | _ => none

/-- Python `v[k]` for a string key: a dict lookup that raises `KeyError`
when the key is absent, a `TypeError` on non-dict values. -/
def jIndex (v : JValue) (k : String) : Py JValue :=
  match v with
  | .obj kvs =>
    match lookupField kvs k with
    | some x => .ok x
    | none => .error .keyError
  | _ => .error .typeError

/-- Python `k in v` for a string `k`: key containment for a dict, membership
for a list, substring test for a string, `TypeError` otherwise. -/
def pyIn (k : String) (v : JValue) : Py Bool :=
  match v with
  | .obj kvs => .ok (lookupField kvs k).isSome
  | .arr xs => .ok (xs.any fun x => jEqStr x k)
  | .str s => .ok (strContains s.toList k.toList)
  | _ => .error .typeError

/-- Python `len(v)`: sized values only, `TypeError` otherwise. -/
def pyLen (v : JValue) : Py Nat :=
  match v with
  | .str s => .ok s.length
  | .arr xs => .ok xs.length
  | .obj kvs => .ok kvs.length
  | _ => .error .typeError

/-- Python iteration `for x in v`: the elements of a list, the keys of a
dict, the characters of a string, `TypeError` otherwise. -/
def jAsList (v : JValue) : Py (List JValue) :=
  match v with
  | .arr xs => .ok xs
  | .obj kvs => .ok (kvs.map fun kv => .str kv.1)
  | .str s => .ok (s.toList.map fun c => .str c.toString)
  | _ => .error .typeError

/-- Python `l[i]`: `IndexError` out of range. -/
def listGet (l : List JValue) (i : Nat) : Py JValue :=
  match l.get? i with
  | some x => .ok x
  | none => .error .indexError

/-- A Python list comprehension with a condition that may raise: elements
are kept in order when the condition evaluates to true, and the first
exception propagates. -/
def pyFilterM (p : JValue → Py Bool) : List JValue → Py (List JValue)
  | [] => .ok []
  | x :: xs => do
    let b ← p x
    let rest ← pyFilterM p xs
    if b then .ok (x :: rest) else .ok rest

/-! The placeholder tokens and separators of `get_panel_chart_targets`. -/

/-- The token replaced by the cluster identifier. -/
def cidTok : Str := "$cluster_id".toList

/-- The token replaced by the volume name. -/
def volTok : Str := "$volume_name".toList

/-- The token replaced by the transformed host name. -/
def hostTok : Str := "$host_name".toList

/-- The separator starting an options block, a dot followed by an opening
curly brace. -/
def dotBraceTok : Str := ['.', '\x7b']

/-- The separator between queries inside one target, a comma and a space. -/
def commaSpaceTok : Str := [',', ' ']

/-- The metric root prefix kept by the normalization. -/
def tendrlTok : Str := "tendrl.".toList

/-- Lines 112-127: each placeholder, when present, is replaced in the target;
the host name has its dots turned into underscores first. The logger calls on
these lines produce no value. -/
def substituteTarget (target host_name cluster_identifier volume_name : Str) : Str :=
  let t1 := if strContains target cidTok then strReplace target cidTok cluster_identifier else target
  let t2 := if strContains t1 volTok then strReplace t1 volTok volume_name else t1
  if strContains t2 hostTok then strReplace t2 hostTok (strReplace host_name ['.'] ['_']) else t2

/-- Lines 131-136: drop everything up to the last opening parenthesis (kept
unchanged when there is none), then keep the part before the first closing
parenthesis. -/
def stripPiece (t : Str) : Str :=
  let t1 :=
    match rsplitOnce t ['('] with
    | some p => p.2
    | none => t
  splitBefore t1 [')']

/-- Lines 131-151: strip one piece, split off a trailing options block after
the last dot-brace, expand a non-empty options block into one query per
comma-separated option, and otherwise keep the piece only when it starts
with the tendrl prefix. -/
def normalizePiece (t : Str) : List Str :=
  let t2 := stripPiece t
  match rsplitOnce t2 dotBraceTok with
  | some (t3, opts) =>
    if !opts.isEmpty then
      (strSplit opts [',']).map fun x => t3 ++ ['.'] ++ splitBefore x ['\x7d']
    else
      if tendrlTok.isPrefixOf t3 then [t3] else []
  | none =>
    if tendrlTok.isPrefixOf t2 then [t2] else []

/-- Lines 112-152: the whole treatment of one collected target string:
substitution, split on comma-space, and normalization of every piece. -/
def processTargetStr (target host_name cluster_identifier volume_name : Str) : List Str :=
  ((strSplit (substituteTarget target host_name cluster_identifier volume_name)
    commaSpaceTok).map normalizePiece).flatten

/-- Lines 103-109: collect the raw template of every target whose hide key
is absent or falsy, preferring a truthy targetFull over target. Non-dict
targets have no get method. -/
def collectTargets : List JValue → Py (List JValue)
  | [] => .ok []
  | t :: ts => do
    let hidden ← pyIn "hide" t
    let keep ←
      if !hidden then .ok true
      else do
        let h ← jIndex t "hide"
        .ok (!h.truthy)
    if keep then
      match t with
      | .obj kvs =>
        let tmpl ←
          match lookupField kvs "targetFull" with
          | some v => if v.truthy then .ok v else jIndex t "target"
          | none => jIndex t "target"
        let rest ← collectTargets ts
        .ok (tmpl :: rest)
      | _ => .error .attributeError
    else
      collectTargets ts

/-- Processing of one collected template value: the string pipeline; a
non-string template fails when searched for a placeholder. -/
def processTargetVal (v : JValue) (host_name cluster_identifier volume_name : Str) : Py (List Str) :=
  match v with
  | .str s => .ok (processTargetStr s.toList host_name cluster_identifier volume_name)
  | _ => .error .typeError

/-- Lines 110-152: the second loop, one inner list appended to the output
per collected template. -/
def processTargets (l : List JValue) (host_name cluster_identifier volume_name : Str) :
    Py (List (List Str)) :=
  match l with
  | [] => .ok []
  | v :: vs => do
    let out ← processTargetVal v host_name cluster_identifier volume_name
    let rest ← processTargets vs host_name cluster_identifier volume_name
    .ok (out :: rest)

/-- Lines 86-155, `GrafanaApi.get_panel_chart_targets` on an already fetched
panel: collect visible templates, process each, and evaluate the final debug
line's panel title lookup. -/
def get_panel_chart_targets_core (panel : JValue)
    (host_name cluster_identifier volume_name : Str) : Py (List (List Str)) := do
  let targetsV ← jIndex panel "targets"
  let targetList ← jAsList targetsV
  let templates ← collectTargets targetList
  let output ← processTargets templates host_name cluster_identifier volume_name
  let _ ← jIndex panel "title"
  .ok output

/-- Lines 67-70: the row filter condition, title key present and equal. -/
def rowMatches (row_title : String) (row : JValue) : Py Bool := do
  let has ← pyIn "title" row
  if has then do
    let t ← jIndex row "title"
    .ok (jEqStr t row_title)
  else .ok false

/-- Lines 79-82: the untyped panel filter condition. -/
def panelMatchesUntyped (panel_title : String) (panel : JValue) : Py Bool := do
  let has ← pyIn "title" panel
  if has then do
    let t ← jIndex panel "title"
    .ok (jEqStr t panel_title)
  else .ok false

/-- Lines 74-77: the typed panel filter condition; the type key is indexed
only after the title matches. -/
def panelMatchesTyped (panel_title panel_type : String) (panel : JValue) : Py Bool := do
  let has ← pyIn "title" panel
  if has then do
    let t ← jIndex panel "title"
    if jEqStr t panel_title then do
      let ty ← jIndex panel "type"
      .ok (jEqStr ty panel_type)
    else .ok false
  else .ok false

/-- Truthiness of the optional panel_type argument (absent or empty is
falsy). -/
def optTruthy : Option String → Bool
  | none => false
  | some s => s ≠ ""

/-- Lines 73-82: the found_panels assignment, the typed comprehension when
the panel_type argument is truthy, the untyped one otherwise. -/
def panelFilter (panel_title : String) (panel_type : Option String)
    (panels : List JValue) : Py (List JValue) :=
  if optTruthy panel_type then
    pyFilterM (panelMatchesTyped panel_title (panel_type.getD "")) panels
  else
    pyFilterM (panelMatchesUntyped panel_title) panels

/-- Lines 55-84, `GrafanaApi.get_panel` on an already fetched layout. -/
def get_panel_core (panel_title row_title : String) (layout : JValue)
    (panel_type : Option String) : Py JValue := do
  let n ← pyLen layout
  if n = 0 then .error .assertionError else do
  let dash ← jIndex layout "dashboard"
  let rowsV ← jIndex dash "rows"
  let dashboard_rows ← jAsList rowsV
  let found_rows ← pyFilterM (rowMatches row_title) dashboard_rows
  if found_rows.length ≠ 1 then .error .assertionError else do
  let row0 ← listGet found_rows 0
  let panelsV ← jIndex row0 "panels"
  let panels ← jAsList panelsV
  let found_panels ← panelFilter panel_title panel_type panels
  if found_panels.length ≠ 1 then .error .assertionError else
  listGet found_panels 0

/-- Python hashability of a JSON value: lists and dicts cannot be dict
keys. -/
def JValue.hashable : JValue → Bool
  | .arr _ => false
  | .obj _ => false
  | _ => true

/-- Lookup in the built structure dict. -/
def dictGet (d : List (JValue × List JValue)) (k : JValue) : Option (List JValue) :=
  match d with
  | [] => none
  | (l, v) :: rest => if JValue.beq l k then some v else dictGet rest k

/-- Python dict item assignment: replace the value of an existing key in
place, otherwise append the new binding. -/
def dictSet (d : List (JValue × List JValue)) (k : JValue) (v : List JValue) :
    List (JValue × List JValue) :=
  match d with
  | [] => [(k, v)]
  | (l, w) :: rest =>
    if JValue.beq l k then (l, v) :: rest else (l, w) :: dictSet rest k v

/-- Lines 172-177: the labels kept from one row's panels: a truthy title,
else a present truthy displayName, else nothing; indexing title raises
KeyError when the key is absent. -/
def keptTitles : List JValue → Py (List JValue)
  | [] => .ok []
  | panel :: rest => do
    let t ← jIndex panel "title"
    if t.truthy then do
      let others ← keptTitles rest
      .ok (t :: others)
    else
      match jLookup panel "displayName" with
      | some d =>
        if d.truthy then do
          let others ← keptTitles rest
          .ok (d :: others)
        else keptTitles rest
      | none => keptTitles rest

/-- Lines 169-177: build structure_grafana row by row; each row sets its
title's entry (resetting an earlier row of the same title) to its kept panel
labels. -/
def buildStructure : List JValue → List (JValue × List JValue) → Py (List (JValue × List JValue))
  | [], acc => .ok acc
  | row :: rest, acc => do
    let key ← jIndex row "title"
    if !key.hashable then .error .typeError else do
    let panelsV ← jIndex row "panels"
    let panels ← jAsList panelsV
    let titles ← keptTitles panels
    buildStructure rest (dictSet acc key titles)

/-- Python equality of two dicts mapping JSON values to lists of JSON
values: same size and every binding of the first found in the second. -/
def pyDictEq (a b : List (JValue × List JValue)) : Bool :=
  a.length == b.length &&
    a.all fun kv =>
      match dictGet b kv.1 with
      | some v => JValue.beqList kv.2 v
      | none => false

/-- Lines 157-190, `GrafanaApi.compare_structure` on an already fetched
layout, producing the outcome of the final equality check. The first
`pytest.check` is non-fatal and only evaluates the layout's length; the
`Differ` debug line produces no value and is omitted. -/
def compare_structure_core (structure0 : List (JValue × List JValue)) (layout : JValue) : Py Bool := do
  let _ ← pyLen layout
  let dash ← jIndex layout "dashboard"
  let rowsV ← jIndex dash "rows"
  let rows ← jAsList rowsV
  let structure_grafana ← buildStructure rows []
  .ok (pyDictEq structure0 structure_grafana)

/-- Line 36: uri split on slash, second part; a string without a slash has
no second part. -/
def slugOf (d : JValue) : Py Str := do
  let u ← jIndex d "uri"
  match u with
  | .str s =>
    match (strSplit s.toList ['/']).get? 1 with
    | some seg => .ok seg
    | none => .error .indexError
  | _ => .error .attributeError

/-- Lines 35-37: the search result comprehension, keeping the slug of every
entry of type dash-db. -/
def get_dashboards_core : List JValue → Py (List Str)
  | [] => .ok []
  | d :: ds => do
    let ty ← jIndex d "type"
    if jEqStr ty "dash-db" then do
      let s ← slugOf d
      let rest ← get_dashboards_core ds
      .ok (s :: rest)
    else
      get_dashboards_core ds

/-- An HTTP response: its parsed JSON body together with whether the
response check accepts it. -/
structure Response where
  body : JValue
  okStatus : Bool

/-- The HTTP layer as an oracle from URLs to responses. -/
structure Http where
  get : String → Response

/-- Modelled from the spec: `ApiBase.check_response`, imported from
`grafanatesting.base` which is not among the source files; per the spec an
operation is one GET producing a JSON object, with no failure handling
beyond basic assertions, so the check is modelled as an abstract acceptance
bit carried by the response. -/
def checkResponse (r : Response) : Py Unit :=
  if r.okStatus then .ok () else .error .checkFailed

/-- Line 31-33: the search URL. -/
def searchUrl (server : String) : String := server ++ "search"

/-- Lines 49-51: the dashboard URL, the server followed by the path
dashboards/db/ and then the slug. -/
def dashboardUrl (server slug : String) : String := server ++ "dashboards/db/" ++ slug

/-- Lines 26-37, `GrafanaApi.get_dashboards`: one GET of the search URL,
then the slug comprehension; paired with the list of URLs requested. -/
def get_dashboards_full (http : Http) (server : String) : Py (List Str) × List String :=
  let url := searchUrl server
  let r := http.get url
  (do
    let _ ← checkResponse r
    let entries ← jAsList r.body
    get_dashboards_core entries,
   [url])

/-- Lines 39-53, `GrafanaApi.get_dashboard`: one GET of the dashboard URL,
the response check, then the parsed body; paired with the list of URLs
requested. -/
def get_dashboard_full (http : Http) (server slug : String) : Py JValue × List String :=
  let url := dashboardUrl server slug
  let r := http.get url
  (do
    let _ ← checkResponse r
    .ok r.body,
   [url])

/-- Lines 55-84, `GrafanaApi.get_panel`: fetch the layout through
`get_dashboard` and search it; all HTTP traffic is that one call's. -/
def get_panel_full (http : Http) (server panel_title row_title dashboard : String)
    (panel_type : Option String) : Py JValue × List String :=
  let g := get_dashboard_full http server dashboard
  (do
    let layout ← g.1
    get_panel_core panel_title row_title layout panel_type,
   g.2)

/-- Lines 86-155, `GrafanaApi.get_panel_chart_targets` as a method of the
client: its body performs no HTTP request, so its URL trace is empty. -/
def get_panel_chart_targets_full (_http : Http) (_server : String) (panel : JValue)
    (host_name cluster_identifier volume_name : Str) : Py (List (List Str)) × List String :=
  (get_panel_chart_targets_core panel host_name cluster_identifier volume_name, [])

/-- Lines 157-190, `GrafanaApi.compare_structure`: fetch the layout through
`get_dashboard` and compare; all HTTP traffic is that one call's. -/
def compare_structure_full (http : Http) (server : String)
    (structure0 : List (JValue × List JValue)) (slug : String) : Py Bool × List String :=
  let g := get_dashboard_full http server slug
  (do
    let layout ← g.1
    compare_structure_core structure0 layout,
   g.2)

/-! Pure characterizations used by the theorems. -/

/-- Whether a JSON value is a dict. -/
def JValue.isObj : JValue → Bool
  | .obj _ => true
  | _ => false

/-- Whether a JSON value is a string. -/
def JValue.isStr : JValue → Bool
  | .str _ => true
  | _ => false

/-- The character list of a JSON string, empty otherwise. -/
def strList : JValue → Str
  | .str s => s.toList
  | _ => []

/-- A row the filter of `get_panel` keeps: a dict whose title entry equals
the requested row title. -/
def isMatchingRow (row_title : String) (row : JValue) : Bool :=
  match jLookup row "title" with
  | some t => jEqStr t row_title
  | none => false

/-- A panel the filter of `get_panel` keeps: a dict whose title entry equals
the requested panel title and, when a truthy panel type is requested, whose
type entry equals it. -/
def isMatchingPanel (panel_title : String) (panel_type : Option String) (panel : JValue) : Bool :=
  match jLookup panel "title" with
  | some t =>
    jEqStr t panel_title &&
      (if optTruthy panel_type then
        match jLookup panel "type" with
        | some ty => jEqStr ty (panel_type.getD "")
        | none => false
      else true)
  | none => false

/-- The layout's row list, as `get_panel` and `compare_structure` reach it. -/
def dashboardRows (layout : JValue) : Py (List JValue) := do
  let dash ← jIndex layout "dashboard"
  let rowsV ← jIndex dash "rows"
  jAsList rowsV

/-- A row's panel list, as `get_panel` reaches it. -/
def rowPanels (row : JValue) : Py (List JValue) := do
  let panelsV ← jIndex row "panels"
  jAsList panelsV

/-- A panel's target list, as `get_panel_chart_targets` reaches it. -/
def panelTargets (panel : JValue) : Py (List JValue) := do
  let v ← jIndex panel "targets"
  jAsList v

/-- A visible target: its hide entry is absent or falsy. -/
def targetVisible (t : JValue) : Bool :=
  match jLookup t "hide" with
  | none => true
  | some v => !v.truthy

/-- The template value a visible target contributes: a truthy targetFull,
else the target entry. -/
def templateVal (t : JValue) : Option JValue :=
  match jLookup t "targetFull" with
  | some v => if v.truthy then some v else jLookup t "target"
  | none => jLookup t "target"

/-- The template string of a target whose template value is a string. -/
def templStr (t : JValue) : Str :=
  match templateVal t with
  | some (.str s) => s.toList
  | _ => []

/-- A well-formed target entry: a dict that, when visible, carries a string
template. -/
def wfTarget (t : JValue) : Bool :=
  t.isObj &&
    (!targetVisible t ||
      match templateVal t with
      | some (.str _) => true
      | _ => false)

/-- Follows claim C5's words: the slug produced for a search entry is the
segment after the first slash of its uri field, and only entries whose type
field equals dash-db produce one. -/
def claimedSlug (d : JValue) : Option Str :=
  match jLookup d "type" with
  | some ty =>
    if jEqStr ty "dash-db" then
      match jLookup d "uri" with
      | some (.str u) => (strSplit u.toList ['/']).get? 1
      | _ => none
    else none
  | none => none

/-- A search entry the slug comprehension can process: a dict with a type
entry and, when of type dash-db, with a string uri containing a slash. -/
def wfSearchEntry (d : JValue) : Bool :=
  d.isObj &&
    match jLookup d "type" with
    | some ty =>
      !jEqStr ty "dash-db" ||
        match jLookup d "uri" with
        | some (.str u) => ((strSplit u.toList ['/']).get? 1).isSome
        | _ => false
    | none => false

/-- Bind on an ok value. -/
@[simp] theorem pyBind_ok {α β : Type} (a : α) (f : α → Py β) :
    (Except.ok a : Py α) >>= f = f a := rfl

/-- Bind on an error. -/
@[simp] theorem pyBind_error {α β : Type} (e : PyError) (f : α → Py β) :
    (Except.error e : Py α) >>= f = .error e := rfl

/-- Pure of the Py monad is ok. -/
@[simp] theorem pyPure_eq {α : Type} (a : α) : (pure a : Py α) = .ok a := rfl

/-- Replacing a pattern that does not occur changes nothing, whatever the
fuel. -/
theorem strReplaceF_of_not_contains (fuel : Nat) :
    ∀ s pat rep, strContains s pat = false → strReplaceF fuel s pat rep = s := by
  induction fuel with
  | zero => intro s pat rep _; cases s <;> simp [strReplaceF]
  | succ n ih =>
    intro s pat rep h
    cases s with
    | nil => simp [strReplaceF]
    | cons c rest =>
      simp only [strContains, Bool.or_eq_false_iff] at h
      simp only [strReplaceF, h.1, false_and, if_false]
      exact congrArg (c :: ·) (ih rest pat rep h.2)

/-- Python replace of an absent pattern is the identity. -/
theorem strReplace_of_not_contains (s pat rep : Str) (h : strContains s pat = false) :
    strReplace s pat rep = s :=
  strReplaceF_of_not_contains s.length s pat rep h

/-- The conditional replace of the source equals the unconditional one. -/
theorem guarded_replace (s pat rep : Str) :
    (if strContains s pat then strReplace s pat rep else s) = strReplace s pat rep := by
  cases h : strContains s pat
  · simp [strReplace_of_not_contains s pat rep h]
  · simp

/-- The guarded substitution chain of lines 112-127 equals the three
unconditional replacements in sequence, the host name with its dots turned
to underscores. -/
theorem substituteTarget_eq (target host_name cluster_identifier volume_name : Str) :
    substituteTarget target host_name cluster_identifier volume_name =
      strReplace (strReplace (strReplace target cidTok cluster_identifier)
        volTok volume_name) hostTok (strReplace host_name ['.'] ['_']) := by
  simp only [substituteTarget, guarded_replace]

/-- Searching for an absent pattern from the right finds nothing. -/
theorem rsplitOnce_of_not_contains (s pat : Str) (h : strContains s pat = false) :
    rsplitOnce s pat = none := by
  induction s with
  | nil => simp [rsplitOnce]
  | cons c rest ih =>
    simp only [strContains, Bool.or_eq_false_iff] at h
    simp [rsplitOnce, ih h.2, h.1]

/-! Claim theorems. -/

/-- C2: in `get_panel_chart_targets`, every occurrence of the cluster,
volume and host placeholders in a target string is replaced (the host name
through its dot-to-underscore transform), and the whole treatment of a
target is the split-and-normalize pipeline applied to the fully substituted
string. -/
theorem substitution_happens_before_split (target host_name cluster_identifier volume_name : Str) :
    processTargetStr target host_name cluster_identifier volume_name =
      ((strSplit
        (strReplace (strReplace (strReplace target cidTok cluster_identifier)
          volTok volume_name) hostTok (strReplace host_name ['.'] ['_']))
        commaSpaceTok).map normalizePiece).flatten := by
  simp only [processTargetStr, substituteTarget_eq]

/-- C8: the host placeholder is not substituted verbatim: the substitution
chain replaces the cluster and volume placeholders by their arguments
unchanged and the host placeholder by the host name with every dot replaced
by an underscore. -/
theorem host_name_dots_become_underscores (target host_name cluster_identifier volume_name : Str) :
    substituteTarget target host_name cluster_identifier volume_name =
      strReplace (strReplace (strReplace target cidTok cluster_identifier)
        volTok volume_name) hostTok (strReplace host_name ['.'] ['_']) :=
  substituteTarget_eq target host_name cluster_identifier volume_name

/-- C9: a piece whose stripped form has no options block is kept, with its
tendrl prefix intact, exactly when it starts with that prefix, and is
silently dropped otherwise; a target all of whose pieces are dropped yields
an empty inner list. -/
theorem piece_without_options_kept_iff_tendrl (t : Str)
    (h : strContains (stripPiece t) dotBraceTok = false) :
    normalizePiece t =
      (if tendrlTok.isPrefixOf (stripPiece t) then [stripPiece t] else []) ∧
    processTargetStr "foo".toList [] [] [] = [] := by
  constructor
  · simp only [normalizePiece, rsplitOnce_of_not_contains _ _ h]
  · rfl

/-- Witness for C9 at two concrete pieces. -/
theorem piece_without_options_kept_iff_tendrl_witness :
    normalizePiece "sum(tendrl.node.cpu)".toList = ["tendrl.node.cpu".toList] ∧
    normalizePiece "other.series".toList = [] := by
  have h1 := piece_without_options_kept_iff_tendrl "sum(tendrl.node.cpu)".toList (by rfl)
  have h2 := piece_without_options_kept_iff_tendrl "other.series".toList (by rfl)
  exact ⟨h1.1, h2.1⟩

/-- C4 amended: `get_dashboards` and `get_dashboard` each issue one GET,
`get_panel` and `compare_structure` each issue exactly one GET through
`get_dashboard`, and `get_panel_chart_targets` issues none. -/
theorem gets_per_operation (http : Http)
    (server slug dashboard panel_title row_title : String) (panel_type : Option String)
    (panel : JValue) (structure0 : List (JValue × List JValue))
    (host_name cluster_identifier volume_name : Str) :
    (get_dashboards_full http server).2.length = 1 ∧
    (get_dashboard_full http server slug).2.length = 1 ∧
    (get_panel_full http server panel_title row_title dashboard panel_type).2.length = 1 ∧
    (compare_structure_full http server structure0 slug).2.length = 1 ∧
    (get_panel_chart_targets_full http server panel
      host_name cluster_identifier volume_name).2.length = 0 :=
  ⟨rfl, rfl, rfl, rfl, rfl⟩

/-- Counterexample to C4 as stated: at a concrete client and panel,
`get_panel_chart_targets` does not issue one GET; its URL trace is empty. -/
theorem chart_targets_gets_ne_one :
    (get_panel_chart_targets_full ⟨fun _ => ⟨.null, true⟩⟩ "srv"
      (.obj [("title", .str "t"), ("targets", .arr [])]) [] [] []).2.length ≠ 1 ∧
    (get_panel_chart_targets_full ⟨fun _ => ⟨.null, true⟩⟩ "srv"
      (.obj [("title", .str "t"), ("targets", .arr [])]) [] [] []).2 = [] := by
  exact ⟨by decide, rfl⟩

/-- C6: `get_dashboard` requests exactly the URL formed from the server
base, the path dashboards/db/ and the slug as final segment, and when the
response check passes it returns the parsed JSON body of that response. -/
theorem get_dashboard_url_and_body (http : Http) (server slug : String)
    (h : (http.get (server ++ "dashboards/db/" ++ slug)).okStatus = true) :
    (get_dashboard_full http server slug).2 = [server ++ "dashboards/db/" ++ slug] ∧
    (get_dashboard_full http server slug).1 =
      .ok (http.get (server ++ "dashboards/db/" ++ slug)).body := by
  refine ⟨rfl, ?_⟩
  simp [get_dashboard_full, dashboardUrl, checkResponse, h]

/-- Witness for C6 at a concrete oracle and slug. -/
theorem get_dashboard_url_and_body_witness :
    (get_dashboard_full ⟨fun _ => ⟨.num 7, true⟩⟩ "http://g/api/" "main").2 =
      ["http://g/api/" ++ "dashboards/db/" ++ "main"] ∧
    (get_dashboard_full ⟨fun _ => ⟨.num 7, true⟩⟩ "http://g/api/" "main").1 =
      .ok ((⟨fun _ => ⟨.num 7, true⟩⟩ : Http).get
        ("http://g/api/" ++ "dashboards/db/" ++ "main")).body :=
  get_dashboard_url_and_body ⟨fun _ => ⟨.num 7, true⟩⟩ "http://g/api/" "main" rfl

/-- C10: a row whose panel has the requested title but no type key makes the
typed filter of `get_panel` raise KeyError instead of filtering the panel
out or failing an assertion. -/
theorem get_panel_missing_type_key_error :
    get_panel_core "used" "row1"
      (.obj [("dashboard", .obj [("rows", .arr [
        .obj [("title", .str "row1"),
              ("panels", .arr [.obj [("title", .str "used")]])]])])])
      (some "graph") = .error .keyError := rfl

/-- Counterexample to C1 as stated: at a concrete layout whose only
title-matching panel lacks a type key, `get_panel` fails with KeyError, not
with an assertion error. -/
theorem get_panel_failure_without_assertion :
    get_panel_core "cpu" "general"
      (.obj [("dashboard", .obj [("rows", .arr [
        .obj [("title", .str "general"),
              ("panels", .arr [.obj [("title", .str "cpu"), ("id", .num 1)]])]])])])
      (some "singlestat") = .error .keyError ∧
    (PyError.keyError = PyError.assertionError → False) := by
  refine ⟨rfl, ?_⟩
  intro h
  cases h

/-- A successful dict lookup makes indexing succeed with the same value. -/
theorem jIndex_of_lookup {d : JValue} {k : String} {v : JValue} (h : jLookup d k = some v) :
    jIndex d k = .ok v := by
  cases d <;> simp_all [jLookup, jIndex]

/-- C5: on a search result whose entries are well formed, `get_dashboards`
returns, in order, the slug of every entry of type dash-db, the segment
after the first slash of its uri, and nothing for entries of other types. -/
theorem dashboards_slugs_of_dash_db (entries : List JValue)
    (h : entries.all wfSearchEntry = true) :
    get_dashboards_core entries = .ok (entries.filterMap claimedSlug) := by
  induction entries with
  | nil => rfl
  | cons d ds ih =>
    rw [List.all_cons, Bool.and_eq_true] at h
    obtain ⟨hd, hds⟩ := h
    simp only [wfSearchEntry, Bool.and_eq_true] at hd
    obtain ⟨_hobj, hrest⟩ := hd
    cases hty : jLookup d "type" with
    | none => simp [hty] at hrest
    | some ty =>
      simp only [hty] at hrest
      have hidx := jIndex_of_lookup hty
      cases hdb : jEqStr ty "dash-db" with
      | false =>
        simp only [get_dashboards_core, hidx, pyBind_ok, hdb, Bool.false_eq_true, if_false]
        rw [ih hds]
        simp only [List.filterMap_cons, claimedSlug, hty, hdb, Bool.false_eq_true, if_false]
      | true =>
        simp only [hdb, Bool.not_true, Bool.false_or] at hrest
        cases huri : jLookup d "uri" with
        | none => simp [huri] at hrest
        | some u =>
          simp only [huri] at hrest
          cases u with
          | str s =>
            rw [Option.isSome_iff_exists] at hrest
            obtain ⟨seg, hseg⟩ := hrest
            have huidx := jIndex_of_lookup huri
            simp only [get_dashboards_core, hidx, pyBind_ok, hdb, if_true, slugOf,
              huidx, hseg, ih hds]
            simp only [List.filterMap_cons, claimedSlug, hty, hdb, if_true, huri, hseg]
          | null => simp at hrest
          | bool b => simp at hrest
          | num n => simp at hrest
          | arr xs => simp at hrest
          | obj kvs => simp at hrest

/-- Witness for C5 at a concrete search result with a dash-db entry, a
folder entry and a second dash-db entry. -/
theorem dashboards_slugs_of_dash_db_witness :
    get_dashboards_core
      [.obj [("type", .str "dash-db"), ("uri", .str "db/alpha")],
       .obj [("type", .str "folder"), ("uri", .str "x")],
       .obj [("type", .str "dash-db"), ("uri", .str "db/beta/x")]] =
      .ok ["alpha".toList, "beta".toList] :=
  dashboards_slugs_of_dash_db
    [.obj [("type", .str "dash-db"), ("uri", .str "db/alpha")],
     .obj [("type", .str "folder"), ("uri", .str "x")],
     .obj [("type", .str "dash-db"), ("uri", .str "db/beta/x")]] (by rfl)

/-- A successful bind splits into a successful first step and a successful
continuation. -/
theorem py_bind_eq_ok {α β : Type} {x : Py α} {f : α → Py β} {b : β}
    (h : (x >>= f) = .ok b) : ∃ a, x = .ok a ∧ f a = .ok b := by
  cases x with
  | ok a => exact ⟨a, rfl, h⟩
  | error e => simp at h

/-- The first loop of `get_panel_chart_targets` on well-formed targets:
exactly the visible targets contribute, each through its template value, a
truthy targetFull before the target entry. -/
theorem collectTargets_wf (targets : List JValue) (h : targets.all wfTarget = true) :
    collectTargets targets =
      .ok ((targets.filter targetVisible).map fun t => (templateVal t).getD .null) := by
  induction targets with
  | nil => rfl
  | cons t ts ih =>
    rw [List.all_cons, Bool.and_eq_true] at h
    obtain ⟨ht, hts⟩ := h
    rw [wfTarget, Bool.and_eq_true] at ht
    obtain ⟨hobj, htmpl⟩ := ht
    cases t with
    | null => simp [JValue.isObj] at hobj
    | bool b => simp [JValue.isObj] at hobj
    | num n => simp [JValue.isObj] at hobj
    | str s => simp [JValue.isObj] at hobj
    | arr xs => simp [JValue.isObj] at hobj
    | obj kvs =>
      have hvis : targetVisible (.obj kvs) =
          (match lookupField kvs "hide" with
          | none => true
          | some v => !v.truthy) := by
        simp [targetVisible, jLookup]
      cases hhide : lookupField kvs "hide" with
      | some hv =>
        rw [hhide] at hvis
        cases hvt : hv.truthy with
        | true =>
          have hvis2 : targetVisible (.obj kvs) = false := by rw [hvis]; simp [hvt]
          simp only [collectTargets, pyIn, hhide, Option.isSome_some, pyBind_ok,
            Bool.not_true, jIndex, hhide, hvt, Bool.false_eq_true, if_false,
            List.filter_cons, hvis2]
          exact ih hts
        | false =>
          have hvis2 : targetVisible (.obj kvs) = true := by rw [hvis]; simp [hvt]
          rw [hvis2] at htmpl
          simp only [Bool.not_true, Bool.false_or] at htmpl
          simp only [collectTargets, pyIn, hhide, Option.isSome_some, pyBind_ok,
            Bool.not_true, jIndex, hhide, hvt, Bool.not_false, if_true,
            List.filter_cons, hvis2, ih hts]
          -- template part
          cases htf : lookupField kvs "targetFull" with
          | some v =>
            cases hvtf : v.truthy with
            | true =>
              have : templateVal (.obj kvs) = some v := by
                simp [templateVal, jLookup, htf, hvtf]
              simp [htf, hvtf, ih hts, this]
            | false =>
              have hTv : templateVal (.obj kvs) = lookupField kvs "target" := by
                simp [templateVal, jLookup, htf, hvtf]
              rw [hTv] at htmpl
              cases htg : lookupField kvs "target" with
              | some w =>
                rw [htg] at htmpl
                cases w with
                | str s2 =>
                  simp [htf, hvtf, htg, ih hts, hTv, jIndex]
                | null => simp at htmpl
                | bool b => simp at htmpl
                | num n => simp at htmpl
                | arr xs => simp at htmpl
                | obj kvs2 => simp at htmpl
              | none => rw [htg] at htmpl; simp at htmpl
          | none =>
            have hTv : templateVal (.obj kvs) = lookupField kvs "target" := by
              simp [templateVal, jLookup, htf]
            rw [hTv] at htmpl
            cases htg : lookupField kvs "target" with
            | some w =>
              rw [htg] at htmpl
              cases w with
              | str s2 =>
                simp [htf, htg, ih hts, hTv, jIndex]
              | null => simp at htmpl
              | bool b => simp at htmpl
              | num n => simp at htmpl
              | arr xs => simp at htmpl
              | obj kvs2 => simp at htmpl
            | none => rw [htg] at htmpl; simp at htmpl
      | none =>
        rw [hhide] at hvis
        have hvis2 : targetVisible (.obj kvs) = true := by rw [hvis]
        rw [hvis2] at htmpl
        simp only [Bool.not_true, Bool.false_or] at htmpl
        simp only [collectTargets, pyIn, hhide, Option.isSome_none, pyBind_ok,
          Bool.not_false, if_true, List.filter_cons, hvis2, ih hts]
        cases htf : lookupField kvs "targetFull" with
        | some v =>
          cases hvtf : v.truthy with
          | true =>
            have : templateVal (.obj kvs) = some v := by
              simp [templateVal, jLookup, htf, hvtf]
            simp [htf, hvtf, ih hts, this]
          | false =>
            have hTv : templateVal (.obj kvs) = lookupField kvs "target" := by
              simp [templateVal, jLookup, htf, hvtf]
            rw [hTv] at htmpl
            cases htg : lookupField kvs "target" with
            | some w =>
              rw [htg] at htmpl
              cases w with
              | str s2 =>
                simp [htf, hvtf, htg, ih hts, hTv, jIndex]
              | null => simp at htmpl
              | bool b => simp at htmpl
              | num n => simp at htmpl
              | arr xs => simp at htmpl
              | obj kvs2 => simp at htmpl
            | none => rw [htg] at htmpl; simp at htmpl
        | none =>
          have hTv : templateVal (.obj kvs) = lookupField kvs "target" := by
            simp [templateVal, jLookup, htf]
          rw [hTv] at htmpl
          cases htg : lookupField kvs "target" with
          | some w =>
            rw [htg] at htmpl
            cases w with
            | str s2 =>
              simp [htf, htg, ih hts, hTv, jIndex]
            | null => simp at htmpl
            | bool b => simp at htmpl
            | num n => simp at htmpl
            | arr xs => simp at htmpl
            | obj kvs2 => simp at htmpl
          | none => rw [htg] at htmpl; simp at htmpl

/-- The template string of a target is the character list of its template
value. -/
theorem templStr_eq (t : JValue) : strList ((templateVal t).getD .null) = templStr t := by
  cases h : templateVal t with
  | none => simp [templStr, strList, h]
  | some v => cases v <;> simp [templStr, strList, h]

/-- The second loop of `get_panel_chart_targets` on string templates: one
inner list per template, in order. -/
theorem processTargets_ok (l : List JValue) (hn cid vol : Str)
    (h : ∀ v ∈ l, JValue.isStr v = true) :
    processTargets l hn cid vol = .ok (l.map fun v => processTargetStr (strList v) hn cid vol) := by
  induction l with
  | nil => rfl
  | cons v vs ih =>
    have hv := h v (List.mem_cons_self v vs)
    cases v with
    | str s =>
      simp only [processTargets, processTargetVal, pyBind_ok,
        ih fun x hx => h x (List.mem_cons_of_mem _ hx), List.map_cons, strList]
    | null => simp [JValue.isStr] at hv
    | bool b => simp [JValue.isStr] at hv
    | num n => simp [JValue.isStr] at hv
    | arr xs => simp [JValue.isStr] at hv
    | obj kvs => simp [JValue.isStr] at hv

/-- C7: on well-formed targets, `get_panel_chart_targets` returns one inner
list per visible target, a target contributing exactly when its hide entry
is absent or falsy, and the processed template is its truthy targetFull
when present and its target entry otherwise. -/
theorem chart_targets_one_inner_list_per_visible (panel : JValue) (targets : List JValue)
    (host_name cluster_identifier volume_name : Str)
    (ht : panelTargets panel = .ok targets)
    (htitle : (jLookup panel "title").isSome = true)
    (hwf : targets.all wfTarget = true) :
    get_panel_chart_targets_core panel host_name cluster_identifier volume_name =
      .ok ((targets.filter targetVisible).map fun t =>
        processTargetStr (templStr t) host_name cluster_identifier volume_name) := by
  simp only [panelTargets] at ht
  obtain ⟨tv, htv, hlist⟩ := py_bind_eq_ok ht
  obtain ⟨title, htitle2⟩ := Option.isSome_iff_exists.mp htitle
  have htidx := jIndex_of_lookup htitle2
  have hstr : ∀ v ∈ (targets.filter targetVisible).map (fun t => (templateVal t).getD .null),
      JValue.isStr v = true := by
    intro v hv
    rw [List.mem_map] at hv
    obtain ⟨t, htm, rfl⟩ := hv
    rw [List.mem_filter] at htm
    obtain ⟨htmem, htvis⟩ := htm
    have hwt : wfTarget t = true := by
      rw [List.all_eq_true] at hwf
      exact hwf t htmem
    rw [wfTarget, Bool.and_eq_true] at hwt
    obtain ⟨_, hx⟩ := hwt
    simp only [htvis, Bool.not_true, Bool.false_or] at hx
    cases hTv : templateVal t with
    | none => rw [hTv] at hx; simp at hx
    | some w =>
      rw [hTv] at hx
      cases w <;> simp_all [JValue.isStr]
  have hmapeq :
      (fun v => processTargetStr (strList v) host_name cluster_identifier volume_name) ∘
        (fun t => (templateVal t).getD .null) =
      fun t => processTargetStr (templStr t) host_name cluster_identifier volume_name := by
    funext t
    simp [Function.comp, templStr_eq]
  simp only [get_panel_chart_targets_core, htv, pyBind_ok, hlist,
    collectTargets_wf targets hwf, processTargets_ok _ _ _ _ hstr, htidx,
    List.map_map, hmapeq]

/-- Witness for C7 at a concrete panel with a plain target, a hidden target
and a target carrying a targetFull. -/
theorem chart_targets_one_inner_list_per_visible_witness :
    get_panel_chart_targets_core
      (.obj [("title", .str "cpu"),
             ("targets", .arr [
               .obj [("target", .str "tendrl.a")],
               .obj [("hide", .bool true), ("target", .str "tendrl.b")],
               .obj [("target", .str "x"), ("targetFull", .str "tendrl.c.full")]])])
      [] [] [] = .ok [["tendrl.a".toList], ["tendrl.c.full".toList]] :=
  chart_targets_one_inner_list_per_visible
    (.obj [("title", .str "cpu"),
           ("targets", .arr [
             .obj [("target", .str "tendrl.a")],
             .obj [("hide", .bool true), ("target", .str "tendrl.b")],
             .obj [("target", .str "x"), ("targetFull", .str "tendrl.c.full")]])])
    [.obj [("target", .str "tendrl.a")],
     .obj [("hide", .bool true), ("target", .str "tendrl.b")],
     .obj [("target", .str "x"), ("targetFull", .str "tendrl.c.full")]]
    [] [] [] rfl rfl rfl

/-- A comprehension that succeeds keeps exactly the elements whose condition
evaluates to true, and the condition agrees with its pure characterization
wherever it succeeds. -/
theorem pyFilterM_ok_filter {p : JValue → Py Bool} {q : JValue → Bool}
    (hpq : ∀ x b, p x = .ok b → b = q x) :
    ∀ {l r}, pyFilterM p l = .ok r → r = l.filter q := by
  intro l
  induction l with
  | nil =>
    intro r h
    simp [pyFilterM] at h
    subst h
    rfl
  | cons x xs ih =>
    intro r h
    cases hpx : p x with
    | error e => simp [pyFilterM, hpx] at h
    | ok b =>
      cases hrest : pyFilterM p xs with
      | error e => simp [pyFilterM, hpx, hrest] at h
      | ok rest =>
        have hb := hpq x b hpx
        subst hb
        simp only [pyFilterM, hpx, hrest, pyBind_ok] at h
        cases hq : q x with
        | true =>
          rw [hq] at h
          simp only [if_true] at h
          cases h
          simp [List.filter_cons, hq, ih hrest]
        | false =>
          rw [hq] at h
          simp only [Bool.false_eq_true, if_false] at h
          cases h
          simp [List.filter_cons, hq, ih hrest]

/-- Wherever the row filter condition evaluates, it agrees with
`isMatchingRow`. -/
theorem rowMatches_ok {rt : String} {row : JValue} {b : Bool}
    (h : rowMatches rt row = .ok b) : b = isMatchingRow rt row := by
  cases row with
  | obj kvs =>
    cases hlk : lookupField kvs "title" with
    | none => simp_all [rowMatches, pyIn, isMatchingRow, jLookup, hlk]
    | some t => simp_all [rowMatches, pyIn, isMatchingRow, jLookup, jIndex, hlk]
  | arr xs =>
    cases hany : xs.any (fun x => jEqStr x "title") with
    | true => simp [rowMatches, pyIn, hany, jIndex] at h
    | false => simp_all [rowMatches, pyIn, isMatchingRow, jLookup, hany]
  | str s =>
    simp only [rowMatches, pyIn, pyBind_ok] at h
    cases hc : strContains s.toList "title".toList with
    | true =>
      rw [hc] at h
      simp [jIndex] at h
    | false =>
      rw [hc] at h
      simp only [Bool.false_eq_true, if_false, Except.ok.injEq] at h
      simp [isMatchingRow, jLookup, h.symm]
  | null => simp [rowMatches, pyIn] at h
  | bool b2 => simp [rowMatches, pyIn] at h
  | num n => simp [rowMatches, pyIn] at h

/-- Wherever the untyped panel filter condition evaluates, it agrees with
`isMatchingPanel` for a falsy panel type. -/
theorem panelMatchesUntyped_ok {pt : String} {ptype : Option String} {panel : JValue} {b : Bool}
    (hopt : optTruthy ptype = false) (h : panelMatchesUntyped pt panel = .ok b) :
    b = isMatchingPanel pt ptype panel := by
  cases panel with
  | obj kvs =>
    cases hlk : lookupField kvs "title" with
    | none => simp_all [panelMatchesUntyped, pyIn, isMatchingPanel, jLookup, hlk]
    | some t => simp_all [panelMatchesUntyped, pyIn, isMatchingPanel, jLookup, jIndex, hlk, hopt]
  | arr xs =>
    cases hany : xs.any (fun x => jEqStr x "title") with
    | true => simp [panelMatchesUntyped, pyIn, hany, jIndex] at h
    | false => simp_all [panelMatchesUntyped, pyIn, isMatchingPanel, jLookup, hany]
  | str s =>
    simp only [panelMatchesUntyped, pyIn, pyBind_ok] at h
    cases hc : strContains s.toList "title".toList with
    | true =>
      rw [hc] at h
      simp [jIndex] at h
    | false =>
      rw [hc] at h
      simp only [Bool.false_eq_true, if_false, Except.ok.injEq] at h
      simp [isMatchingPanel, jLookup, h.symm]
  | null => simp [panelMatchesUntyped, pyIn] at h
  | bool b2 => simp [panelMatchesUntyped, pyIn] at h
  | num n => simp [panelMatchesUntyped, pyIn] at h

/-- Wherever the typed panel filter condition evaluates, it agrees with
`isMatchingPanel` for that panel type. -/
theorem panelMatchesTyped_ok {pt ptv : String} {panel : JValue} {b : Bool}
    (hne : ptv ≠ "") (h : panelMatchesTyped pt ptv panel = .ok b) :
    b = isMatchingPanel pt (some ptv) panel := by
  cases panel with
  | obj kvs =>
    cases hlk : lookupField kvs "title" with
    | none => simp_all [panelMatchesTyped, pyIn, isMatchingPanel, jLookup, hlk]
    | some t =>
      cases hjeq : jEqStr t pt with
      | false => simp_all [panelMatchesTyped, pyIn, isMatchingPanel, jLookup, jIndex, hlk, hjeq]
      | true =>
        cases hty : lookupField kvs "type" with
        | none =>
          simp_all [panelMatchesTyped, pyIn, isMatchingPanel, jLookup, jIndex, hlk, hjeq, hty]
        | some ty =>
          simp_all [panelMatchesTyped, pyIn, isMatchingPanel, jLookup, jIndex, hlk, hjeq, hty,
            optTruthy, hne]
  | arr xs =>
    cases hany : xs.any (fun x => jEqStr x "title") with
    | true => simp [panelMatchesTyped, pyIn, hany, jIndex] at h
    | false => simp_all [panelMatchesTyped, pyIn, isMatchingPanel, jLookup, hany]
  | str s =>
    simp only [panelMatchesTyped, pyIn, pyBind_ok] at h
    cases hc : strContains s.toList "title".toList with
    | true =>
      rw [hc] at h
      simp [jIndex] at h
    | false =>
      rw [hc] at h
      simp only [Bool.false_eq_true, if_false, Except.ok.injEq] at h
      simp [isMatchingPanel, jLookup, h.symm]
  | null => simp [panelMatchesTyped, pyIn] at h
  | bool b2 => simp [panelMatchesTyped, pyIn] at h
  | num n => simp [panelMatchesTyped, pyIn] at h

/-- A panel filter that succeeds returns exactly the panels matching the
requested title and type. -/
theorem panelFilter_ok {panel_title : String} {panel_type : Option String}
    {panels r : List JValue}
    (h : panelFilter panel_title panel_type panels = .ok r) :
    r = panels.filter (isMatchingPanel panel_title panel_type) := by
  cases hopt : optTruthy panel_type with
  | true =>
    simp only [panelFilter, hopt, if_true] at h
    cases panel_type with
    | none => simp [optTruthy] at hopt
    | some s =>
      have hs : s ≠ "" := by simpa [optTruthy] using hopt
      rw [Option.getD_some] at h
      exact pyFilterM_ok_filter (fun x b hb => panelMatchesTyped_ok hs hb) h
  | false =>
    simp only [panelFilter, hopt, Bool.false_eq_true, if_false] at h
    exact pyFilterM_ok_filter (fun x b hb => panelMatchesUntyped_ok hopt hb) h

/-- C1 amended: `get_panel` returns a panel only when the layout holds
exactly one row whose title entry equals the requested row title and that
row holds exactly one panel matching the requested title (and type, when a
truthy type is requested), the returned panel being that one; it fails with
an assertion error on an empty layout, when zero or multiple rows match,
and when zero or multiple panels of the unique matching row match; a
missing required key instead raises a key error (the counterexample). -/
theorem get_panel_unique_match (panel_title row_title : String) (layout : JValue)
    (panel_type : Option String) :
    (∀ p, get_panel_core panel_title row_title layout panel_type = .ok p →
      ∃ rows row panels,
        dashboardRows layout = .ok rows ∧
        rows.countP (isMatchingRow row_title) = 1 ∧
        row ∈ rows ∧ isMatchingRow row_title row = true ∧
        rowPanels row = .ok panels ∧
        panels.countP (isMatchingPanel panel_title panel_type) = 1 ∧
        p ∈ panels ∧ isMatchingPanel panel_title panel_type p = true) ∧
    (pyLen layout = .ok 0 →
      get_panel_core panel_title row_title layout panel_type =
        .error .assertionError) ∧
    (∀ n rows found_rows, pyLen layout = .ok n → n ≠ 0 →
      dashboardRows layout = .ok rows →
      pyFilterM (rowMatches row_title) rows = .ok found_rows →
      rows.countP (isMatchingRow row_title) ≠ 1 →
      get_panel_core panel_title row_title layout panel_type =
        .error .assertionError) ∧
    (∀ n rows row panels found_panels, pyLen layout = .ok n → n ≠ 0 →
      dashboardRows layout = .ok rows →
      pyFilterM (rowMatches row_title) rows = .ok [row] →
      rowPanels row = .ok panels →
      panelFilter panel_title panel_type panels = .ok found_panels →
      panels.countP (isMatchingPanel panel_title panel_type) ≠ 1 →
      get_panel_core panel_title row_title layout panel_type =
        .error .assertionError) := by
  refine ⟨?_, ?_, ?_, ?_⟩
  · -- a returned panel implies the unique-match structure
    intro p h
    simp only [get_panel_core] at h
    obtain ⟨n, hn, h⟩ := py_bind_eq_ok h
    by_cases hn0 : n = 0
    · rw [if_pos hn0] at h
      exact absurd h (by simp)
    rw [if_neg hn0] at h
    obtain ⟨dash, hdash, h⟩ := py_bind_eq_ok h
    obtain ⟨rowsV, hrowsV, h⟩ := py_bind_eq_ok h
    obtain ⟨rows, hrows, h⟩ := py_bind_eq_ok h
    obtain ⟨found_rows, hfr, h⟩ := py_bind_eq_ok h
    by_cases hfr1 : found_rows.length = 1
    case neg =>
      rw [if_pos hfr1] at h
      exact absurd h (by simp)
    rw [if_neg (by simp [hfr1])] at h
    obtain ⟨row0, hrow0, h⟩ := py_bind_eq_ok h
    obtain ⟨panelsV, hpanelsV, h⟩ := py_bind_eq_ok h
    obtain ⟨panels, hpanels, h⟩ := py_bind_eq_ok h
    obtain ⟨found_panels, hfp, h⟩ := py_bind_eq_ok h
    by_cases hfp1 : found_panels.length = 1
    case neg =>
      rw [if_pos hfp1] at h
      exact absurd h (by simp)
    rw [if_neg (by simp [hfp1])] at h
    have hfeq : found_panels = panels.filter (isMatchingPanel panel_title panel_type) :=
      panelFilter_ok hfp
    -- the unique matching row
    have hfilt : found_rows = rows.filter (isMatchingRow row_title) :=
      pyFilterM_ok_filter (fun x b hb => rowMatches_ok hb) hfr
    obtain ⟨rowA, hfrEq⟩ := List.length_eq_one.mp hfr1
    rw [hfrEq] at hrow0
    have hrowA : row0 = rowA := by
      simp [listGet] at hrow0
      exact hrow0.symm
    subst hrowA
    have hcount : rows.countP (isMatchingRow row_title) = 1 := by
      rw [List.countP_eq_length_filter, ← hfilt, hfrEq]
      rfl
    have hrowmem : row0 ∈ rows ∧ isMatchingRow row_title row0 = true := by
      have hm : row0 ∈ rows.filter (isMatchingRow row_title) := by
        rw [← hfilt, hfrEq]
        simp
      simpa [List.mem_filter] using hm
    -- the unique matching panel
    obtain ⟨pA, hfpEq⟩ := List.length_eq_one.mp hfp1
    rw [hfpEq] at h
    have hpA : pA = p := by
      simp [listGet] at h
      exact h
    subst hpA
    have hcountp : panels.countP (isMatchingPanel panel_title panel_type) = 1 := by
      rw [List.countP_eq_length_filter, ← hfeq, hfpEq]
      rfl
    have hpmem : pA ∈ panels ∧ isMatchingPanel panel_title panel_type pA = true := by
      have hm : pA ∈ panels.filter (isMatchingPanel panel_title panel_type) := by
        rw [← hfeq, hfpEq]
        simp
      simpa [List.mem_filter] using hm
    exact ⟨rows, row0, panels,
      by simp [dashboardRows, hdash, hrowsV, hrows],
      hcount, hrowmem.1, hrowmem.2,
      by simp [rowPanels, hpanelsV, hpanels],
      hcountp, hpmem.1, hpmem.2⟩
  · -- an empty layout fails the first assertion
    intro h0
    simp [get_panel_core, h0]
  · -- zero or multiple matching rows fail the second assertion
    intro n rows found_rows hlen hn0 hrows hfr hcount
    simp only [dashboardRows] at hrows
    obtain ⟨dash, hdash, h2⟩ := py_bind_eq_ok hrows
    obtain ⟨rowsV, hrowsV, h3⟩ := py_bind_eq_ok h2
    have hfilt : found_rows = rows.filter (isMatchingRow row_title) :=
      pyFilterM_ok_filter (fun x b hb => rowMatches_ok hb) hfr
    have hne : found_rows.length ≠ 1 := by
      rw [hfilt, ← List.countP_eq_length_filter]
      exact hcount
    simp only [get_panel_core, hlen, pyBind_ok]
    rw [if_neg hn0]
    simp only [hdash, pyBind_ok, hrowsV, h3, hfr]
    rw [if_pos hne]
  · -- zero or multiple matching panels fail the third assertion
    intro n rows row panels found_panels hlen hn0 hrows hfr hpan hpf hcountp
    simp only [dashboardRows] at hrows
    obtain ⟨dash, hdash, h2⟩ := py_bind_eq_ok hrows
    obtain ⟨rowsV, hrowsV, h3⟩ := py_bind_eq_ok h2
    simp only [rowPanels] at hpan
    obtain ⟨panelsV, hpanelsV, h4⟩ := py_bind_eq_ok hpan
    have hfeq : found_panels = panels.filter (isMatchingPanel panel_title panel_type) :=
      panelFilter_ok hpf
    have hne : found_panels.length ≠ 1 := by
      rw [hfeq, ← List.countP_eq_length_filter]
      exact hcountp
    have hlg : listGet [row] 0 = .ok row := rfl
    simp only [get_panel_core, hlen, pyBind_ok]
    rw [if_neg hn0]
    simp only [hdash, pyBind_ok, hrowsV, h3, hfr]
    rw [if_neg (by simp)]
    simp only [hlg, pyBind_ok, hpanelsV, h4, hpf]
    rw [if_pos hne]

/-- Witness for C1: the success clause at a layout with a unique matching
row and panel, the empty-layout assertion, the zero-matching-rows
assertion, and the multiple-matching-panels assertion, each at a concrete
input. -/
theorem get_panel_unique_match_witness :
    (∃ rows row panels,
      dashboardRows (.obj [("dashboard", .obj [("rows", .arr [
        .obj [("title", .str "r1"),
              ("panels", .arr [.obj [("title", .str "p1")]])]])])]) = .ok rows ∧
      rows.countP (isMatchingRow "r1") = 1 ∧
      row ∈ rows ∧ isMatchingRow "r1" row = true ∧
      rowPanels row = .ok panels ∧
      panels.countP (isMatchingPanel "p1" none) = 1 ∧
      JValue.obj [("title", .str "p1")] ∈ panels ∧
      isMatchingPanel "p1" none (.obj [("title", .str "p1")]) = true) ∧
    get_panel_core "p1" "r1" (.obj []) none = .error .assertionError ∧
    get_panel_core "p1" "r1" (.obj [("dashboard", .obj [("rows", .arr [])])]) none =
      .error .assertionError ∧
    get_panel_core "p1" "r1"
      (.obj [("dashboard", .obj [("rows", .arr [
        .obj [("title", .str "r1"),
              ("panels", .arr [.obj [("title", .str "p1")],
                               .obj [("title", .str "p1")]])]])])]) none =
      .error .assertionError :=
  ⟨(get_panel_unique_match "p1" "r1"
      (.obj [("dashboard", .obj [("rows", .arr [
        .obj [("title", .str "r1"),
              ("panels", .arr [.obj [("title", .str "p1")]])]])])]) none).1
    (.obj [("title", .str "p1")]) rfl,
   (get_panel_unique_match "p1" "r1" (.obj []) none).2.1 rfl,
   (get_panel_unique_match "p1" "r1"
      (.obj [("dashboard", .obj [("rows", .arr [])])]) none).2.2.1
     1 [] [] rfl (by decide) rfl rfl (by decide),
   (get_panel_unique_match "p1" "r1"
      (.obj [("dashboard", .obj [("rows", .arr [
        .obj [("title", .str "r1"),
              ("panels", .arr [.obj [("title", .str "p1")],
                               .obj [("title", .str "p1")]])]])])]) none).2.2.2
     1
     [.obj [("title", .str "r1"),
            ("panels", .arr [.obj [("title", .str "p1")],
                             .obj [("title", .str "p1")]])]]
     (.obj [("title", .str "r1"),
            ("panels", .arr [.obj [("title", .str "p1")],
                             .obj [("title", .str "p1")]])])
     [.obj [("title", .str "p1")], .obj [("title", .str "p1")]]
     [.obj [("title", .str "p1")], .obj [("title", .str "p1")]]
     rfl (by decide) rfl rfl rfl rfl (by decide)⟩

